import Mathlib

/-!
Shallow embedding of the md-todo backend (src/backend/src/lib.rs and the
in-memory mock repository of src/backend/tests/integration_test.rs), with
theorems settling the frozen claims about validation, the two repository
implementations, and the HTTP handlers.

Rust strings are modelled as Lean `String` (a list of Unicode scalar values).
Rust `str::len`, which counts UTF-8 bytes, is modelled by `rustStrLen`.
`DateTime<Utc>` timestamps are modelled as `Nat`; every function that calls
`Utc::now()` in Rust takes the current time as an explicit `now` parameter.
-/

/-- Model of `uuid::Uuid`. The `version` field records the UUID version
(7 for ids made by `Uuid::now_v7`); `payload` abstracts the remaining bits. -/
structure Uuid where
  version : Nat
  payload : Nat
deriving DecidableEq, Repr

/-- Model of the uuid crate's `Uuid::now_v7` (external to the repository):
each call draws from a generator state (a counter abstracting the
timestamp-plus-randomness source) and yields a version-7 UUID that differs
from every UUID the generator produced before. -/
def uuidNowV7 (g : Nat) : Uuid × Nat :=
  (⟨7, g⟩, g + 1)

/-- Model of Rust `char::is_whitespace`: the Unicode White_Space property,
listed by code point (as in the Unicode PropList used by Rust). -/
def isRustWhitespace (c : Char) : Bool :=
  let n := c.toNat
  decide ((0x09 ≤ n ∧ n ≤ 0x0D) ∨ n = 0x20 ∨ n = 0x85 ∨ n = 0xA0 ∨ n = 0x1680 ∨
    (0x2000 ≤ n ∧ n ≤ 0x200A) ∨ n = 0x2028 ∨ n = 0x2029 ∨ n = 0x202F ∨
    n = 0x205F ∨ n = 0x3000)

/-- Model of Rust `str::trim`: drop leading and trailing whitespace. -/
def rustTrim (s : String) : String :=
  ⟨((s.data.dropWhile isRustWhitespace).reverse.dropWhile isRustWhitespace).reverse⟩

/-- UTF-8 byte length of a list of characters. -/
def utf8Len : List Char → Nat
  | [] => 0
  | c :: cs => c.utf8Size + utf8Len cs

/-- Model of Rust `str::len`: the length of the string in UTF-8 bytes
(not in characters). -/
def rustStrLen (s : String) : Nat :=
  utf8Len s.data

/-- Model of Rust `str::contains(char)`: some character of the string equals
the given one. -/
def strContainsChar (s : String) (c : Char) : Bool :=
  s.data.any (fun d => d = c)

/-- The `Todo` entity of src/backend/src/lib.rs. -/
structure Todo where
  id : Uuid
  title : String
  content : String
  completed : Bool
  created_at : Nat
  updated_at : Nat
deriving DecidableEq, Repr

/-- Model of `CreateTodoRequest` of src/backend/src/lib.rs. -/
structure CreateTodoRequest where
  title : String
  content : String
deriving DecidableEq, Repr

/-- Model of `UpdateTodoRequest` of src/backend/src/lib.rs. -/
structure UpdateTodoRequest where
  title : Option String
  content : Option String
  completed : Option Bool
deriving DecidableEq, Repr

/-- Model of `ApiResponse<T>` of src/backend/src/lib.rs. -/
structure ApiResponse (T : Type) where
  success : Bool
  data : Option T
  error : Option String
deriving DecidableEq, Repr

/-- Model of `ApiResponse::success` of src/backend/src/lib.rs. -/
def ApiResponse.mkSuccess {T : Type} (data : T) : ApiResponse T :=
  ⟨true, some data, none⟩

/-- Model of `ApiResponse::error` of src/backend/src/lib.rs. -/
def ApiResponse.mkError {T : Type} (message : String) : ApiResponse T :=
  ⟨false, none, some message⟩

/-- Model of `Todo::validate_title` of src/backend/src/lib.rs: reject when the trimmed
title is empty, when the byte length exceeds 255, or when the title contains
a newline. -/
def Todo.validate_title (title : String) : Except String Unit :=
  if (rustTrim title).isEmpty then
    Except.error "Title cannot be empty"
  else if rustStrLen title > 255 then
    Except.error "Title cannot exceed 255 characters"
  else if strContainsChar title '\n' then
    Except.error "Title cannot contain newlines"
  else
    Except.ok ()

/-- Model of `Todo::validate_content` of src/backend/src/lib.rs: reject when the byte
length exceeds 10000. -/
def Todo.validate_content (content : String) : Except String Unit :=
  if rustStrLen content > 10000 then
    Except.error "Content cannot exceed 10000 characters"
  else
    Except.ok ()

/-- Model of `CreateTodoRequest::validate` of src/backend/src/lib.rs. -/
def CreateTodoRequest.validate (r : CreateTodoRequest) : Except String Unit := do
  Todo.validate_title r.title
  Todo.validate_content r.content

/-- Model of `UpdateTodoRequest::validate` of src/backend/src/lib.rs. -/
def UpdateTodoRequest.validate (r : UpdateTodoRequest) : Except String Unit := do
  match r.title with
  | some t => Todo.validate_title t
  | none => pure ()
  match r.content with
  | some c => Todo.validate_content c
  | none => pure ()

/-- Model of `Todo::new` of src/backend/src/lib.rs. In Rust the constructor calls
`Utc::now()` and `Uuid::now_v7()` itself; those effects are hoisted into the
explicit `now` and `id` arguments. -/
def Todo.new (title content : String) (now : Nat) (id : Uuid) : Todo :=
  { id := id, title := title, content := content, completed := false,
    created_at := now, updated_at := now }

/-- Model of `Todo::new` with the UUID generator state threaded through, so that the
freshness of `Uuid::now_v7` is visible: returns the todo and the successor
generator state. -/
def Todo.newGen (title content : String) (now : Nat) (g : Nat) : Todo × Nat :=
  let (id, gNext) := uuidNowV7 g
  (Todo.new title content now id, gNext)

/-- Model of `Todo::update_with_validation` of src/backend/src/lib.rs. The Rust method
mutates `&mut self` and returns `Result<(), String>`; it is modelled as
returning the result together with the final state of the todo. All
validation happens before any field is assigned, so on the error path the
todo is returned unchanged, exactly as in the source. -/
def Todo.update_with_validation (t : Todo) (title content : Option String)
    (completed : Option Bool) (now : Nat) : Except String Unit × Todo :=
  let checks : Except String Unit := do
    match title with
    | some ti => Todo.validate_title ti
    | none => pure ()
    match content with
    | some c => Todo.validate_content c
    | none => pure ()
  match checks with
  | Except.error e => (Except.error e, t)
  | Except.ok _ =>
      (Except.ok (),
        { t with
          title := title.getD t.title
          content := content.getD t.content
          completed := completed.getD t.completed
          updated_at := now })

/-! ## The relational-table-backed repository

`DatabaseTodoRepository` of src/backend/src/lib.rs issues SQL against a
`todos` table. The table is modelled as a `List Todo` of rows in insertion
order. The table schema (the migrations) is not under src/; following the
spec's description of the store as keyed by id (upsert/select/update/delete
by id, and `fetch_optional` expecting at most one row per id), `id` is taken
to be the primary key, so a plain INSERT of an existing id fails with a
uniqueness violation. SQL leaves the order of equal `created_at` keys in
ORDER BY unspecified; the model fixes the stable (insertion-preserving)
order. -/

/-- Whether some row of the table has the given id (`WHERE id = $1` hits). -/
def dbAnyId (id : Uuid) : List Todo → Bool
  | [] => false
  | t :: ts => if t.id = id then true else dbAnyId id ts

/-- First row with the given id (`SELECT ... WHERE id = $1` under the
primary-key invariant there is at most one). -/
def dbFindTodo (id : Uuid) : List Todo → Option Todo
  | [] => none
  | t :: ts => if t.id = id then some t else dbFindTodo id ts

/-- Insert a row at the end of the table (`INSERT INTO todos ...`). -/
def dbInsertRow (t : Todo) (rows : List Todo) : List Todo :=
  rows ++ [t]

/-- The row update applied by the `UPDATE ... SET title = COALESCE($2, title),
content = COALESCE($3, content), completed = COALESCE($4, completed),
updated_at = $5` statement, and equally the field-wise assignment performed
by `MockTodoRepository::update_todo` and the COALESCE-free part of
`Todo::update_with_validation`: absent fields keep their value, present
fields are overwritten, `updated_at` is set to `now`. -/
def UpdateTodoRequest.applyTo (u : UpdateTodoRequest) (t : Todo) (now : Nat) : Todo :=
  { t with
    title := u.title.getD t.title
    content := u.content.getD t.content
    completed := u.completed.getD t.completed
    updated_at := now }

/-- Rows of the table after `UPDATE todos SET ... WHERE id = $1`: every row
whose id matches is updated, every other row is untouched. -/
def dbUpdateRows (id : Uuid) (u : UpdateTodoRequest) (now : Nat)
    (rows : List Todo) : List Todo :=
  rows.map (fun t => if t.id = id then u.applyTo t now else t)

/-- Rows of the table after `DELETE FROM todos WHERE id = $1`. -/
def dbDeleteRows (id : Uuid) : List Todo → List Todo
  | [] => []
  | t :: ts => if t.id = id then dbDeleteRows id ts else t :: dbDeleteRows id ts

/-- Insert into a list sorted by `created_at` descending, keeping earlier
rows first among equal keys. -/
def insertByCreatedDesc (t : Todo) : List Todo → List Todo
  | [] => [t]
  | u :: us =>
      if u.created_at ≥ t.created_at then u :: insertByCreatedDesc t us
      else t :: u :: us

/-- Model of `ORDER BY created_at DESC`: sort the rows by creation time, newest
first. -/
def sortByCreatedDesc : List Todo → List Todo
  | [] => []
  | t :: ts => insertByCreatedDesc t (sortByCreatedDesc ts)

/-- Model of `DatabaseTodoRepository::create_todo` of src/backend/src/lib.rs: a plain
parameterized INSERT (no ON CONFLICT clause) returning the inserted row; on
a duplicate id the INSERT violates the primary-key constraint, the statement
fails, and the table is unchanged. -/
def DatabaseTodoRepository.create_todo (todo : Todo) (rows : List Todo) :
    Except String Todo × List Todo :=
  if dbAnyId todo.id rows then
    (Except.error "duplicate key value violates unique constraint", rows)
  else
    (Except.ok todo, dbInsertRow todo rows)

/-- Model of `DatabaseTodoRepository::get_all_todos` of src/backend/src/lib.rs:
`SELECT ... FROM todos ORDER BY created_at DESC`. -/
def DatabaseTodoRepository.get_all_todos (rows : List Todo) :
    Except String (List Todo) × List Todo :=
  (Except.ok (sortByCreatedDesc rows), rows)

/-- Model of `DatabaseTodoRepository::get_todo_by_id` of src/backend/src/lib.rs:
`SELECT ... WHERE id = $1` with `fetch_optional`. -/
def DatabaseTodoRepository.get_todo_by_id (id : Uuid) (rows : List Todo) :
    Except String (Option Todo) × List Todo :=
  (Except.ok (dbFindTodo id rows), rows)

/-- Model of `DatabaseTodoRepository::update_todo` of src/backend/src/lib.rs: the
single-row UPDATE with COALESCE and RETURNING, fetched with
`fetch_optional`. `Utc::now()` is passed as `now`. -/
def DatabaseTodoRepository.update_todo (id : Uuid) (u : UpdateTodoRequest)
    (now : Nat) (rows : List Todo) :
    Except String (Option Todo) × List Todo :=
  (Except.ok ((dbFindTodo id rows).map (fun t => u.applyTo t now)),
    dbUpdateRows id u now rows)

/-- Model of `DatabaseTodoRepository::delete_todo` of src/backend/src/lib.rs:
`DELETE FROM todos WHERE id = $1`, returning `rows_affected() > 0`. -/
def DatabaseTodoRepository.delete_todo (id : Uuid) (rows : List Todo) :
    Except String Bool × List Todo :=
  (Except.ok (dbAnyId id rows), dbDeleteRows id rows)

/-! ## The in-memory mock repository

`MockTodoRepository` of src/backend/tests/integration_test.rs holds a
`should_fail` flag and a vector of todos, each behind a read/write lock.
Its state is modelled as `Bool × List Todo` (the flag and the vector in
insertion order); the lock disappears in the sequential model. When the
flag is set every operation returns `sqlx::Error::RowNotFound`. -/

/-- The state of `MockTodoRepository`: the `should_fail` flag and the
todo vector. -/
abbrev MockState : Type := Bool × List Todo

/-- Model of `MockTodoRepository::update_todo`'s in-place update of the first
todo in the vector with the given id: returns the updated todo (if found)
and the new vector. -/
def mockUpdateGo (id : Uuid) (u : UpdateTodoRequest) (now : Nat) :
    List Todo → Option Todo × List Todo
  | [] => (none, [])
  | t :: ts =>
      if t.id = id then
        (some (u.applyTo t now), u.applyTo t now :: ts)
      else
        let (r, tsNext) := mockUpdateGo id u now ts
        (r, t :: tsNext)

/-- Model of `MockTodoRepository::delete_todo`'s removal of the first todo in the
vector with the given id: returns whether one was found and the new
vector. -/
def mockDeleteGo (id : Uuid) : List Todo → Bool × List Todo
  | [] => (false, [])
  | t :: ts =>
      if t.id = id then (true, ts)
      else
        let (b, tsNext) := mockDeleteGo id ts
        (b, t :: tsNext)

/-- Model of `MockTodoRepository::create_todo` of integration_test.rs: fail when
the flag is set, otherwise push the todo and return a clone of it. -/
def MockTodoRepository.create_todo (todo : Todo) (s : MockState) :
    Except String Todo × MockState :=
  match s with
  | (fail, todos) =>
      if fail then (Except.error "RowNotFound", (fail, todos))
      else (Except.ok todo, (fail, todos ++ [todo]))

/-- Model of `MockTodoRepository::get_all_todos` of integration_test.rs: fail when
the flag is set, otherwise return a clone of the vector in insertion
order. -/
def MockTodoRepository.get_all_todos (s : MockState) :
    Except String (List Todo) × MockState :=
  match s with
  | (fail, todos) =>
      if fail then (Except.error "RowNotFound", (fail, todos))
      else (Except.ok todos, (fail, todos))

/-- Model of `MockTodoRepository::get_todo_by_id` of integration_test.rs: the first
todo in the vector with the given id. -/
def MockTodoRepository.get_todo_by_id (id : Uuid) (s : MockState) :
    Except String (Option Todo) × MockState :=
  match s with
  | (fail, todos) =>
      if fail then (Except.error "RowNotFound", (fail, todos))
      else (Except.ok (dbFindTodo id todos), (fail, todos))

/-- Model of `MockTodoRepository::update_todo` of integration_test.rs: update the
first todo with the given id field-by-field, set `updated_at`, and return
a clone; `None` if absent. -/
def MockTodoRepository.update_todo (id : Uuid) (u : UpdateTodoRequest)
    (now : Nat) (s : MockState) :
    Except String (Option Todo) × MockState :=
  match s with
  | (fail, todos) =>
      if fail then (Except.error "RowNotFound", (fail, todos))
      else
        let (r, todosNext) := mockUpdateGo id u now todos
        (Except.ok r, (fail, todosNext))

/-- Model of `MockTodoRepository::delete_todo` of integration_test.rs: remove the
first todo with the given id, reporting whether one was found. -/
def MockTodoRepository.delete_todo (id : Uuid) (s : MockState) :
    Except String Bool × MockState :=
  match s with
  | (fail, todos) =>
      if fail then (Except.error "RowNotFound", (fail, todos))
      else
        let (b, todosNext) := mockDeleteGo id todos
        (Except.ok b, (fail, todosNext))

/-! ## The HTTP handler layer

The handlers of src/backend/src/lib.rs are generic over
`R: TodoRepositoryTrait`; this is modelled by a record of the five
repository operations over an abstract state type. Each handler returns
`Result<Json<ApiResponse<..>>, StatusCode>`, modelled as
`Except Nat (ApiResponse ..)` with the numeric status codes of axum's
`StatusCode`, together with the repository state after the call. -/

/-- The numeric HTTP status codes used by the handlers. -/
def StatusCode.OK : Nat := 200

/-- Model of `StatusCode::NO_CONTENT`. -/
def StatusCode.NO_CONTENT : Nat := 204

/-- Model of `StatusCode::BAD_REQUEST`. -/
def StatusCode.BAD_REQUEST : Nat := 400

/-- Model of `StatusCode::NOT_FOUND`. -/
def StatusCode.NOT_FOUND : Nat := 404

/-- Model of `StatusCode::INTERNAL_SERVER_ERROR`. -/
def StatusCode.INTERNAL_SERVER_ERROR : Nat := 500

/-- The `TodoRepositoryTrait` of src/backend/src/lib.rs: the five repository
operations over a state type `σ`. `update_todo` receives the `Utc::now()`
value its implementations read as an explicit `now`. -/
structure TodoRepositoryTrait (σ : Type) where
  create_todo : Todo → σ → Except String Todo × σ
  get_all_todos : σ → Except String (List Todo) × σ
  get_todo_by_id : Uuid → σ → Except String (Option Todo) × σ
  update_todo : Uuid → UpdateTodoRequest → Nat → σ → Except String (Option Todo) × σ
  delete_todo : Uuid → σ → Except String Bool × σ

/-- Model of `DatabaseTodoRepository`'s implementation of the trait. -/
def DatabaseTodoRepository.repo : TodoRepositoryTrait (List Todo) :=
  { create_todo := DatabaseTodoRepository.create_todo
    get_all_todos := DatabaseTodoRepository.get_all_todos
    get_todo_by_id := DatabaseTodoRepository.get_todo_by_id
    update_todo := DatabaseTodoRepository.update_todo
    delete_todo := DatabaseTodoRepository.delete_todo }

/-- Model of `MockTodoRepository`'s implementation of the trait. -/
def MockTodoRepository.repo : TodoRepositoryTrait MockState :=
  { create_todo := MockTodoRepository.create_todo
    get_all_todos := MockTodoRepository.get_all_todos
    get_todo_by_id := MockTodoRepository.get_todo_by_id
    update_todo := MockTodoRepository.update_todo
    delete_todo := MockTodoRepository.delete_todo }

/-- The `get_todos` handler of src/backend/src/lib.rs. -/
def get_todos {σ : Type} (repository : TodoRepositoryTrait σ) (s : σ) :
    Except Nat (ApiResponse (List Todo)) × σ :=
  match repository.get_all_todos s with
  | (Except.ok todos, s2) => (Except.ok (ApiResponse.mkSuccess todos), s2)
  | (Except.error _, s2) => (Except.error StatusCode.INTERNAL_SERVER_ERROR, s2)

/-- The `create_todo` handler of src/backend/src/lib.rs: validate the
request, build the todo with `Todo::new` (its `Utc::now()` and
`Uuid::now_v7()` effects appear as `now` and the generator state `g`), and
store it. On a validation error the handler returns 400 before any
repository call, so the state and the generator are returned untouched. -/
def create_todo {σ : Type} (repository : TodoRepositoryTrait σ)
    (request : CreateTodoRequest) (now : Nat) (g : Nat) (s : σ) :
    (Except Nat (ApiResponse Todo) × σ) × Nat :=
  match request.validate with
  | Except.error _ => ((Except.error StatusCode.BAD_REQUEST, s), g)
  | Except.ok _ =>
      let (id, gNext) := uuidNowV7 g
      let todo := Todo.new request.title request.content now id
      match repository.create_todo todo s with
      | (Except.ok created, s2) => ((Except.ok (ApiResponse.mkSuccess created), s2), gNext)
      | (Except.error _, s2) => ((Except.error StatusCode.INTERNAL_SERVER_ERROR, s2), gNext)

/-- The `get_todo` handler of src/backend/src/lib.rs. -/
def get_todo {σ : Type} (repository : TodoRepositoryTrait σ) (id : Uuid) (s : σ) :
    Except Nat (ApiResponse Todo) × σ :=
  match repository.get_todo_by_id id s with
  | (Except.ok (some todo), s2) => (Except.ok (ApiResponse.mkSuccess todo), s2)
  | (Except.ok none, s2) => (Except.error StatusCode.NOT_FOUND, s2)
  | (Except.error _, s2) => (Except.error StatusCode.INTERNAL_SERVER_ERROR, s2)

/-- The `update_todo` handler of src/backend/src/lib.rs: validate the
request (400 on failure, before any repository call), then update; a
missing id is 404, a repository error 500. -/
def update_todo {σ : Type} (repository : TodoRepositoryTrait σ) (id : Uuid)
    (request : UpdateTodoRequest) (now : Nat) (s : σ) :
    Except Nat (ApiResponse Todo) × σ :=
  match request.validate with
  | Except.error _ => (Except.error StatusCode.BAD_REQUEST, s)
  | Except.ok _ =>
      match repository.update_todo id request now s with
      | (Except.ok (some todo), s2) => (Except.ok (ApiResponse.mkSuccess todo), s2)
      | (Except.ok none, s2) => (Except.error StatusCode.NOT_FOUND, s2)
      | (Except.error _, s2) => (Except.error StatusCode.INTERNAL_SERVER_ERROR, s2)

/-- The `delete_todo` handler of src/backend/src/lib.rs: 204 on success,
404 when the id is unknown, 500 on a repository error. -/
def delete_todo {σ : Type} (repository : TodoRepositoryTrait σ) (id : Uuid) (s : σ) :
    Except Nat Nat × σ :=
  match repository.delete_todo id s with
  | (Except.ok true, s2) => (Except.ok StatusCode.NO_CONTENT, s2)
  | (Except.ok false, s2) => (Except.error StatusCode.NOT_FOUND, s2)
  | (Except.error _, s2) => (Except.error StatusCode.INTERNAL_SERVER_ERROR, s2)

/-! ## Sequences of repository operations

To compare the two repository implementations, an operation language over
the five trait methods and a deterministic runner for each implementation.
The mock runner starts with `should_fail` unset, matching a test app built
by `create_test_app`. -/

/-- One repository operation, with the ambient `Utc::now()` value of an
update recorded in the operation. -/
inductive Op where
  | create : Todo → Op
  | getAll : Op
  | getById : Uuid → Op
  | update : Uuid → UpdateTodoRequest → Nat → Op
  | delete : Uuid → Op
deriving DecidableEq, Repr

deriving instance DecidableEq for Except

/-- The result of one repository operation. -/
inductive OpResult where
  | todoRes : Except String Todo → OpResult
  | listRes : Except String (List Todo) → OpResult
  | optRes : Except String (Option Todo) → OpResult
  | boolRes : Except String Bool → OpResult
deriving DecidableEq, Repr

/-- One step of the mock repository. -/
def mockStep (op : Op) (s : MockState) : OpResult × MockState :=
  match op with
  | Op.create t =>
      let (r, s2) := MockTodoRepository.create_todo t s
      (OpResult.todoRes r, s2)
  | Op.getAll =>
      let (r, s2) := MockTodoRepository.get_all_todos s
      (OpResult.listRes r, s2)
  | Op.getById id =>
      let (r, s2) := MockTodoRepository.get_todo_by_id id s
      (OpResult.optRes r, s2)
  | Op.update id u now =>
      let (r, s2) := MockTodoRepository.update_todo id u now s
      (OpResult.optRes r, s2)
  | Op.delete id =>
      let (r, s2) := MockTodoRepository.delete_todo id s
      (OpResult.boolRes r, s2)

/-- One step of the database repository. -/
def dbStep (op : Op) (rows : List Todo) : OpResult × List Todo :=
  match op with
  | Op.create t =>
      let (r, s2) := DatabaseTodoRepository.create_todo t rows
      (OpResult.todoRes r, s2)
  | Op.getAll =>
      let (r, s2) := DatabaseTodoRepository.get_all_todos rows
      (OpResult.listRes r, s2)
  | Op.getById id =>
      let (r, s2) := DatabaseTodoRepository.get_todo_by_id id rows
      (OpResult.optRes r, s2)
  | Op.update id u now =>
      let (r, s2) := DatabaseTodoRepository.update_todo id u now rows
      (OpResult.optRes r, s2)
  | Op.delete id =>
      let (r, s2) := DatabaseTodoRepository.delete_todo id rows
      (OpResult.boolRes r, s2)

/-- Run a sequence of operations on the mock repository. -/
def mockRun : List Op → MockState → List OpResult × MockState
  | [], s => ([], s)
  | op :: ops, s =>
      let (r, s2) := mockStep op s
      let (rs, s3) := mockRun ops s2
      (r :: rs, s3)

/-- Run a sequence of operations on the database repository. -/
def dbRun : List Op → List Todo → List OpResult × List Todo
  | [], rows => ([], rows)
  | op :: ops, rows =>
      let (r, rows2) := dbStep op rows
      let (rs, rows3) := dbRun ops rows2
      (r :: rs, rows3)

/-- Pairwise distinctness of the row ids: the primary-key invariant of the
`todos` table, which also holds of every mock store reachable through
handler-created todos. -/
def idsUniqueB : List Todo → Bool
  | [] => true
  | t :: ts => !(dbAnyId t.id ts) && idsUniqueB ts

/-- The transformation relating the results of the two repository
implementations: a successful `get_all_todos` answer is reordered by
`created_at` descending; every other result is kept as is. -/
def fixRes : OpResult → OpResult
  | OpResult.listRes (Except.ok l) => OpResult.listRes (Except.ok (sortByCreatedDesc l))
  | r => r

/-- Freshness of a single operation over a table: a create's id must be
absent; the other operations are unconstrained. -/
def opFresh (op : Op) (rows : List Todo) : Bool :=
  match op with
  | Op.create t => !(dbAnyId t.id rows)
  | _ => true

/-- Freshness of an operation sequence over a starting table: every created
todo's id is absent from the table at the moment of its creation (as holds
for the handler, which draws ids from `Uuid::now_v7`). -/
def freshRunB : List Op → List Todo → Bool
  | [], _ => true
  | op :: ops, rows => opFresh op rows && freshRunB ops (dbStep op rows).2

/-! ## Validation theorems -/

/-- Characterisation of `Todo::validate_title`. -/
theorem validate_title_ok_iff (t : String) :
    Todo.validate_title t = Except.ok () ↔
      ((rustTrim t).isEmpty = false ∧ rustStrLen t ≤ 255 ∧
        strContainsChar t '\n' = false) := by
  unfold Todo.validate_title
  by_cases h1 : (rustTrim t).isEmpty = true <;>
    by_cases h2 : rustStrLen t > 255 <;>
    by_cases h3 : strContainsChar t '\n' = true <;>
    simp [h1, h2, h3] <;> omega

/-- Characterisation of `Todo::validate_content`. -/
theorem validate_content_ok_iff (c : String) :
    Todo.validate_content c = Except.ok () ↔ rustStrLen c ≤ 10000 := by
  unfold Todo.validate_content
  by_cases h : rustStrLen c > 10000 <;> simp [h] <;> omega

/-- Decomposition of `CreateTodoRequest::validate` into its two checks. -/
theorem create_validate_ok_iff (r : CreateTodoRequest) :
    r.validate = Except.ok () ↔
      (Todo.validate_title r.title = Except.ok () ∧
        Todo.validate_content r.content = Except.ok ()) := by
  unfold CreateTodoRequest.validate
  cases ht : Todo.validate_title r.title with
  | error e => simp [ht, Bind.bind, Except.bind]
  | ok u => cases u; simp [ht, Bind.bind, Except.bind]

/-- C1: `CreateTodoRequest::validate` returns Ok exactly when the title is
non-empty after trimming, the title's UTF-8 length is at most 255 bytes, the
title has no newline, and the content's UTF-8 length is at most 10000 bytes;
and the empty content passes content validation. -/
theorem create_todo_request_validate_characterisation :
    (∀ r : CreateTodoRequest,
      r.validate = Except.ok () ↔
        ((rustTrim r.title).isEmpty = false ∧ rustStrLen r.title ≤ 255 ∧
          strContainsChar r.title '\n' = false ∧ rustStrLen r.content ≤ 10000)) ∧
    Todo.validate_content "" = Except.ok () := by
  refine ⟨fun r => ?_, by decide⟩
  rw [create_validate_ok_iff, validate_title_ok_iff, validate_content_ok_iff]
  tauto

/-- UTF-8 length of a repeated character. -/
theorem utf8Len_replicate (n : Nat) (c : Char) :
    utf8Len (List.replicate n c) = n * c.utf8Size := by
  induction n with
  | zero => simp [utf8Len]
  | succ k ih =>
      simp [List.replicate, utf8Len, ih]
      ring

/-- Non-emptiness of a string with a first character. -/
theorem string_mk_cons_isEmpty_false (c : Char) (l : List Char) :
    (String.mk (c :: l)).isEmpty = false := by
  have h := Char.utf8Size_pos c
  simp [String.isEmpty, String.endPos, String.utf8ByteSize, String.utf8ByteSize.go,
    String.Pos.ext_iff]
  omega

/-- Trimming a repetition of a non-whitespace character changes nothing. -/
theorem rustTrim_replicate (c : Char) (hc : isRustWhitespace c = false) (n : Nat) :
    rustTrim (String.mk (List.replicate n c)) = String.mk (List.replicate n c) := by
  unfold rustTrim
  cases n with
  | zero => simp
  | succ k =>
      have h1 : List.dropWhile isRustWhitespace (List.replicate (k + 1) c) =
          List.replicate (k + 1) c := by
        rw [List.replicate_succ, List.dropWhile_cons, hc]
        simp
      show String.mk (((List.replicate (k + 1) c).dropWhile
        isRustWhitespace).reverse.dropWhile isRustWhitespace).reverse = _
      rw [h1, List.reverse_replicate, h1, List.reverse_replicate]

/-- C10: the length limits count UTF-8 bytes, not characters: a title of
128 characters (each the 3-byte character U+3042) is only 128 characters
long but 384 bytes long and is rejected with the 255-limit message, and a
content of 3334 such characters (10002 bytes, 3334 characters) is rejected
with the 10000-limit message. -/
theorem length_limits_count_bytes :
    (String.mk (List.replicate 128 'あ')).data.length ≤ 255 ∧
    rustStrLen (String.mk (List.replicate 128 'あ')) > 255 ∧
    Todo.validate_title (String.mk (List.replicate 128 'あ')) =
      Except.error "Title cannot exceed 255 characters" ∧
    (String.mk (List.replicate 3334 'あ')).data.length ≤ 10000 ∧
    rustStrLen (String.mk (List.replicate 3334 'あ')) > 10000 ∧
    Todo.validate_content (String.mk (List.replicate 3334 'あ')) =
      Except.error "Content cannot exceed 10000 characters" := by
  have htitle : rustStrLen (String.mk (List.replicate 128 'あ')) = 384 := by
    show utf8Len (List.replicate 128 'あ') = 384
    rw [utf8Len_replicate]
    decide
  have hcontent : rustStrLen (String.mk (List.replicate 3334 'あ')) = 10002 := by
    show utf8Len (List.replicate 3334 'あ') = 10002
    rw [utf8Len_replicate]
    decide
  have htrim : (rustTrim (String.mk (List.replicate 128 'あ'))).isEmpty = false := by
    rw [rustTrim_replicate 'あ' (by decide) 128]
    rw [show (128 : Nat) = 127 + 1 by norm_num, List.replicate_succ]
    exact string_mk_cons_isEmpty_false 'あ' (List.replicate 127 'あ')
  have hlen1 : (String.mk (List.replicate 128 'あ')).data.length ≤ 255 := by
    show (List.replicate 128 'あ').length ≤ 255
    rw [List.length_replicate]
    norm_num
  have hlen2 : (String.mk (List.replicate 3334 'あ')).data.length ≤ 10000 := by
    show (List.replicate 3334 'あ').length ≤ 10000
    rw [List.length_replicate]
    norm_num
  refine ⟨hlen1, by rw [htitle]; omega, ?_, hlen2, by rw [hcontent]; omega, ?_⟩
  · unfold Todo.validate_title
    rw [htrim, htitle]
    simp
  · unfold Todo.validate_content
    rw [hcontent]
    simp

/-- C8: `Todo::new` initialises `completed` to false, sets `created_at`
equal to `updated_at` (both to the current time), copies the given title and
content, and draws a fresh version-7 UUID; a todo created afterwards from
the advanced generator receives a distinct id. -/
theorem todo_new_fields_and_fresh_id (title content : String) (now g : Nat) :
    ((Todo.newGen title content now g).1).completed = false ∧
    ((Todo.newGen title content now g).1).created_at = now ∧
    ((Todo.newGen title content now g).1).updated_at = now ∧
    ((Todo.newGen title content now g).1).title = title ∧
    ((Todo.newGen title content now g).1).content = content ∧
    ((Todo.newGen title content now g).1).id.version = 7 ∧
    (∀ (title2 content2 : String) (now2 : Nat),
      ((Todo.newGen title2 content2 now2 (Todo.newGen title content now g).2).1).id ≠
        ((Todo.newGen title content now g).1).id) := by
  refine ⟨rfl, rfl, rfl, rfl, rfl, rfl, ?_⟩
  intro title2 content2 now2
  simp [Todo.newGen, uuidNowV7, Todo.new, Uuid.mk.injEq]

/-- C9: `Todo::update_with_validation` is atomic: when a provided title or
content fails validation, the call returns an error and the todo keeps all
its fields, `updated_at` included. -/
theorem update_with_validation_atomic (t : Todo) (title content : Option String)
    (completed : Option Bool) (now : Nat)
    (h : (∃ ti, title = some ti ∧ Todo.validate_title ti ≠ Except.ok ()) ∨
         (∃ c, content = some c ∧ Todo.validate_content c ≠ Except.ok ())) :
    ∃ e, Todo.update_with_validation t title content completed now =
      (Except.error e, t) := by
  unfold Todo.update_with_validation
  rcases h with ⟨ti, rfl, hne⟩ | ⟨c, rfl, hne⟩
  · cases hv : Todo.validate_title ti with
    | ok u => cases u; exact absurd hv hne
    | error e => exact ⟨e, by simp [hv, Bind.bind, Except.bind, Pure.pure, Except.pure]⟩
  · cases hc : Todo.validate_content c with
    | ok u => cases u; exact absurd hc hne
    | error e =>
        cases title with
        | none => exact ⟨e, by simp [hc, Bind.bind, Except.bind, Pure.pure, Except.pure]⟩
        | some ti =>
            cases hv : Todo.validate_title ti with
            | error e1 => exact ⟨e1, by simp [hv, Bind.bind, Except.bind, Pure.pure, Except.pure]⟩
            | ok u => cases u; exact ⟨e, by simp [hv, hc, Bind.bind, Except.bind, Pure.pure, Except.pure]⟩

/-- Witness for C9 at a concrete todo and an empty (hence invalid) title. -/
theorem update_with_validation_atomic_witness :
    ∃ e, Todo.update_with_validation ⟨⟨7, 0⟩, "a", "b", false, 0, 0⟩
        (some "") none none 5 =
      (Except.error e, ⟨⟨7, 0⟩, "a", "b", false, 0, 0⟩) :=
  update_with_validation_atomic ⟨⟨7, 0⟩, "a", "b", false, 0, 0⟩ (some "") none none 5
    (Or.inl ⟨"", rfl, by decide⟩)

/-! ## Handler theorems -/

/-- C6: `ApiResponse::success` always sets `success = true`,
`data = Some(payload)`, `error = None`, and `ApiResponse::error` always sets
`success = false`, `data = None`, `error = Some(message)`; and every
successful response of the payload-returning handlers is built with
`ApiResponse::success`. -/
theorem api_response_envelope :
    (∀ (T : Type) (payload : T),
      (ApiResponse.mkSuccess payload).success = true ∧
      (ApiResponse.mkSuccess payload).data = some payload ∧
      (ApiResponse.mkSuccess payload).error = none) ∧
    (∀ (T : Type) (message : String),
      (@ApiResponse.mkError T message).success = false ∧
      (@ApiResponse.mkError T message).data = none ∧
      (@ApiResponse.mkError T message).error = some message) ∧
    (∀ (σ : Type) (repository : TodoRepositoryTrait σ) (s : σ),
      (∃ code, (get_todos repository s).1 = Except.error code) ∨
      (∃ todos, (get_todos repository s).1 =
        Except.ok (ApiResponse.mkSuccess todos))) ∧
    (∀ (σ : Type) (repository : TodoRepositoryTrait σ)
        (request : CreateTodoRequest) (now g : Nat) (s : σ),
      (∃ code, ((create_todo repository request now g s).1).1 = Except.error code) ∨
      (∃ td, ((create_todo repository request now g s).1).1 =
        Except.ok (ApiResponse.mkSuccess td))) ∧
    (∀ (σ : Type) (repository : TodoRepositoryTrait σ) (id : Uuid) (s : σ),
      (∃ code, (get_todo repository id s).1 = Except.error code) ∨
      (∃ td, (get_todo repository id s).1 =
        Except.ok (ApiResponse.mkSuccess td))) ∧
    (∀ (σ : Type) (repository : TodoRepositoryTrait σ) (id : Uuid)
        (request : UpdateTodoRequest) (now : Nat) (s : σ),
      (∃ code, (update_todo repository id request now s).1 = Except.error code) ∨
      (∃ td, (update_todo repository id request now s).1 =
        Except.ok (ApiResponse.mkSuccess td))) := by
  refine ⟨fun T payload => ⟨rfl, rfl, rfl⟩, fun T message => ⟨rfl, rfl, rfl⟩,
    ?_, ?_, ?_, ?_⟩
  · intro σ repository s
    unfold get_todos
    rcases hr : repository.get_all_todos s with ⟨r, s2⟩
    cases r with
    | ok todos => exact Or.inr ⟨todos, by simp⟩
    | error e => exact Or.inl ⟨StatusCode.INTERNAL_SERVER_ERROR, by simp⟩
  · intro σ repository request now g s
    unfold create_todo
    cases hv : request.validate with
    | error e => exact Or.inl ⟨StatusCode.BAD_REQUEST, by simp⟩
    | ok u =>
        cases u
        rcases hr : repository.create_todo
            (Todo.new request.title request.content now ⟨7, g⟩) s with ⟨r, s2⟩
        cases r with
        | ok created => exact Or.inr ⟨created, by simp [uuidNowV7, hr]⟩
        | error e => exact Or.inl ⟨StatusCode.INTERNAL_SERVER_ERROR, by simp [uuidNowV7, hr]⟩
  · intro σ repository id s
    unfold get_todo
    rcases hr : repository.get_todo_by_id id s with ⟨r, s2⟩
    cases r with
    | ok o =>
        cases o with
        | some td => exact Or.inr ⟨td, by simp⟩
        | none => exact Or.inl ⟨StatusCode.NOT_FOUND, by simp⟩
    | error e => exact Or.inl ⟨StatusCode.INTERNAL_SERVER_ERROR, by simp⟩
  · intro σ repository id request now s
    unfold update_todo
    cases hv : request.validate with
    | error e => exact Or.inl ⟨StatusCode.BAD_REQUEST, by simp⟩
    | ok u =>
        cases u
        rcases hr : repository.update_todo id request now s with ⟨r, s2⟩
        cases r with
        | ok o =>
            cases o with
            | some td => exact Or.inr ⟨td, by simp [hr]⟩
            | none => exact Or.inl ⟨StatusCode.NOT_FOUND, by simp [hr]⟩
        | error e => exact Or.inl ⟨StatusCode.INTERNAL_SERVER_ERROR, by simp [hr]⟩

/-- C4: when validation of the request fails, the `create_todo` and
`update_todo` handlers return 400 BAD_REQUEST before any repository call:
for an arbitrary repository the state (and, for create, the id generator)
comes back untouched. -/
theorem invalid_request_yields_400_and_no_repository_call :
    ∀ (σ : Type) (repository : TodoRepositoryTrait σ),
      (∀ (request : CreateTodoRequest) (now g : Nat) (s : σ) (e : String),
        request.validate = Except.error e →
        create_todo repository request now g s =
          ((Except.error StatusCode.BAD_REQUEST, s), g)) ∧
      (∀ (id : Uuid) (request : UpdateTodoRequest) (now : Nat) (s : σ) (e : String),
        request.validate = Except.error e →
        update_todo repository id request now s =
          (Except.error StatusCode.BAD_REQUEST, s)) := by
  intro σ repository
  constructor
  · intro request now g s e h
    unfold create_todo
    rw [h]
  · intro id request now s e h
    unfold update_todo
    rw [h]

/-- Witness for C4: an empty title is rejected with 400 by both handlers,
here against the mock repository on the empty store. -/
theorem invalid_request_yields_400_witness :
    create_todo MockTodoRepository.repo ⟨"", "x"⟩ 0 0 (false, []) =
      ((Except.error StatusCode.BAD_REQUEST, ((false, []) : MockState)), 0) ∧
    update_todo MockTodoRepository.repo ⟨7, 0⟩ ⟨some "", none, none⟩ 0 (false, []) =
      (Except.error StatusCode.BAD_REQUEST, ((false, []) : MockState)) :=
  ⟨(invalid_request_yields_400_and_no_repository_call MockState
      MockTodoRepository.repo).1 ⟨"", "x"⟩ 0 0 (false, [])
      "Title cannot be empty" (by decide),
    (invalid_request_yields_400_and_no_repository_call MockState
      MockTodoRepository.repo).2 ⟨7, 0⟩ ⟨some "", none, none⟩ 0 (false, [])
      "Title cannot be empty" (by decide)⟩

/-- C5: a repository error makes every handler return 500
INTERNAL_SERVER_ERROR with no retry or other recovery, and for `get_todo`,
`update_todo` and `delete_todo` a missing id (`Ok(None)` / `Ok(false)`)
yields 404 NOT_FOUND. -/
theorem repository_error_yields_500_and_missing_id_404 :
    ∀ (σ : Type) (repository : TodoRepositoryTrait σ),
      (∀ (s : σ) (e : String) (s2 : σ),
        repository.get_all_todos s = (Except.error e, s2) →
        get_todos repository s =
          (Except.error StatusCode.INTERNAL_SERVER_ERROR, s2)) ∧
      (∀ (request : CreateTodoRequest) (now g : Nat) (s : σ) (e : String) (s2 : σ),
        request.validate = Except.ok () →
        repository.create_todo
          (Todo.new request.title request.content now ⟨7, g⟩) s =
            (Except.error e, s2) →
        create_todo repository request now g s =
          ((Except.error StatusCode.INTERNAL_SERVER_ERROR, s2), g + 1)) ∧
      (∀ (id : Uuid) (s : σ) (e : String) (s2 : σ),
        repository.get_todo_by_id id s = (Except.error e, s2) →
        get_todo repository id s =
          (Except.error StatusCode.INTERNAL_SERVER_ERROR, s2)) ∧
      (∀ (id : Uuid) (s : σ) (s2 : σ),
        repository.get_todo_by_id id s = (Except.ok none, s2) →
        get_todo repository id s = (Except.error StatusCode.NOT_FOUND, s2)) ∧
      (∀ (id : Uuid) (request : UpdateTodoRequest) (now : Nat) (s : σ)
          (e : String) (s2 : σ),
        request.validate = Except.ok () →
        repository.update_todo id request now s = (Except.error e, s2) →
        update_todo repository id request now s =
          (Except.error StatusCode.INTERNAL_SERVER_ERROR, s2)) ∧
      (∀ (id : Uuid) (request : UpdateTodoRequest) (now : Nat) (s : σ) (s2 : σ),
        request.validate = Except.ok () →
        repository.update_todo id request now s = (Except.ok none, s2) →
        update_todo repository id request now s =
          (Except.error StatusCode.NOT_FOUND, s2)) ∧
      (∀ (id : Uuid) (s : σ) (e : String) (s2 : σ),
        repository.delete_todo id s = (Except.error e, s2) →
        delete_todo repository id s =
          (Except.error StatusCode.INTERNAL_SERVER_ERROR, s2)) ∧
      (∀ (id : Uuid) (s : σ) (s2 : σ),
        repository.delete_todo id s = (Except.ok false, s2) →
        delete_todo repository id s = (Except.error StatusCode.NOT_FOUND, s2)) := by
  intro σ repository
  refine ⟨?_, ?_, ?_, ?_, ?_, ?_, ?_, ?_⟩
  · intro s e s2 h
    unfold get_todos
    rw [h]
  · intro request now g s e s2 hv h
    unfold create_todo
    rw [hv]
    simp [uuidNowV7, h]
  · intro id s e s2 h
    unfold get_todo
    rw [h]
  · intro id s s2 h
    unfold get_todo
    rw [h]
  · intro id request now e s s2 hv h
    unfold update_todo
    rw [hv]
    simp [h]
  · intro id request now s s2 hv h
    unfold update_todo
    rw [hv]
    simp [h]
  · intro id s e s2 h
    unfold delete_todo
    rw [h]
  · intro id s s2 h
    unfold delete_todo
    rw [h]

/-- Witness for C5: against the mock repository with `should_fail` set every
handler answers 500, and against the empty store the id-keyed handlers
answer 404. -/
theorem repository_error_yields_500_witness :
    get_todos MockTodoRepository.repo (true, []) =
      (Except.error StatusCode.INTERNAL_SERVER_ERROR, ((true, []) : MockState)) ∧
    create_todo MockTodoRepository.repo ⟨"t", "c"⟩ 0 0 (true, []) =
      ((Except.error StatusCode.INTERNAL_SERVER_ERROR, ((true, []) : MockState)), 1) ∧
    get_todo MockTodoRepository.repo ⟨7, 0⟩ (true, []) =
      (Except.error StatusCode.INTERNAL_SERVER_ERROR, ((true, []) : MockState)) ∧
    get_todo MockTodoRepository.repo ⟨7, 0⟩ (false, []) =
      (Except.error StatusCode.NOT_FOUND, ((false, []) : MockState)) ∧
    update_todo MockTodoRepository.repo ⟨7, 0⟩ ⟨none, none, some true⟩ 0 (true, []) =
      (Except.error StatusCode.INTERNAL_SERVER_ERROR, ((true, []) : MockState)) ∧
    update_todo MockTodoRepository.repo ⟨7, 0⟩ ⟨none, none, some true⟩ 0 (false, []) =
      (Except.error StatusCode.NOT_FOUND, ((false, []) : MockState)) ∧
    delete_todo MockTodoRepository.repo ⟨7, 0⟩ (true, []) =
      (Except.error StatusCode.INTERNAL_SERVER_ERROR, ((true, []) : MockState)) ∧
    delete_todo MockTodoRepository.repo ⟨7, 0⟩ (false, []) =
      (Except.error StatusCode.NOT_FOUND, ((false, []) : MockState)) :=
  have C := repository_error_yields_500_and_missing_id_404 MockState
    MockTodoRepository.repo
  ⟨C.1 (true, []) "RowNotFound" (true, []) rfl,
    C.2.1 ⟨"t", "c"⟩ 0 0 (true, []) "RowNotFound" (true, []) (by decide) rfl,
    (C.2.2.1 ⟨7, 0⟩ (true, []) "RowNotFound" (true, []) rfl),
    (C.2.2.2.1 ⟨7, 0⟩ (false, []) (false, []) rfl),
    (C.2.2.2.2.1 ⟨7, 0⟩ ⟨none, none, some true⟩ 0 (true, []) "RowNotFound"
      (true, []) (by decide) rfl),
    (C.2.2.2.2.2.1 ⟨7, 0⟩ ⟨none, none, some true⟩ 0 (false, []) (false, [])
      (by decide) rfl),
    (C.2.2.2.2.2.2.1 ⟨7, 0⟩ (true, []) "RowNotFound" (true, []) rfl),
    (C.2.2.2.2.2.2.2 ⟨7, 0⟩ (false, []) (false, []) rfl)⟩

/-! ## Repository theorems -/

/-- Counterexample to C3: the create statement is a plain INSERT, not an
upsert. With a row of id ⟨7, 0⟩ already in the table, creating a todo with
the same id fails with a uniqueness violation and replaces nothing. -/
theorem db_create_not_upsert_cex :
    DatabaseTodoRepository.create_todo ⟨⟨7, 0⟩, "b", "new", true, 1, 1⟩
        [⟨⟨7, 0⟩, "a", "old", false, 0, 0⟩] =
      (Except.error "duplicate key value violates unique constraint",
        [⟨⟨7, 0⟩, "a", "old", false, 0, 0⟩]) := by
  decide

/-- C3 amended: `DatabaseTodoRepository::create_todo` is a plain
parameterized INSERT: it succeeds and appends the row exactly when no row
with the todo's id exists; when such a row exists the INSERT fails on the
primary key and the table is unchanged, rather than replacing the row. -/
theorem db_create_plain_insert (todo : Todo) (rows : List Todo) :
    (dbAnyId todo.id rows = false →
      DatabaseTodoRepository.create_todo todo rows =
        (Except.ok todo, rows ++ [todo])) ∧
    (dbAnyId todo.id rows = true →
      ∃ e, DatabaseTodoRepository.create_todo todo rows =
        (Except.error e, rows)) := by
  constructor
  · intro h
    unfold DatabaseTodoRepository.create_todo
    rw [h]
    rfl
  · intro h
    unfold DatabaseTodoRepository.create_todo
    rw [h]
    exact ⟨"duplicate key value violates unique constraint", rfl⟩

/-- Witness for the amended C3 at a fresh and at a colliding id. -/
theorem db_create_plain_insert_witness :
    (DatabaseTodoRepository.create_todo ⟨⟨7, 1⟩, "b", "new", true, 1, 1⟩
        [⟨⟨7, 0⟩, "a", "old", false, 0, 0⟩] =
      (Except.ok ⟨⟨7, 1⟩, "b", "new", true, 1, 1⟩,
        [⟨⟨7, 0⟩, "a", "old", false, 0, 0⟩, ⟨⟨7, 1⟩, "b", "new", true, 1, 1⟩])) ∧
    (∃ e, DatabaseTodoRepository.create_todo ⟨⟨7, 0⟩, "b", "new", true, 1, 1⟩
        [⟨⟨7, 0⟩, "a", "old", false, 0, 0⟩] =
      (Except.error e, [⟨⟨7, 0⟩, "a", "old", false, 0, 0⟩])) :=
  ⟨(db_create_plain_insert ⟨⟨7, 1⟩, "b", "new", true, 1, 1⟩
      [⟨⟨7, 0⟩, "a", "old", false, 0, 0⟩]).1 (by decide),
    (db_create_plain_insert ⟨⟨7, 0⟩, "b", "new", true, 1, 1⟩
      [⟨⟨7, 0⟩, "a", "old", false, 0, 0⟩]).2 (by decide)⟩

/-- A miss of `WHERE id = $1` means the select finds nothing. -/
theorem dbFindTodo_of_not_found (id : Uuid) :
    ∀ ts : List Todo, dbAnyId id ts = false → dbFindTodo id ts = none := by
  intro ts
  induction ts with
  | nil => intro _; rfl
  | cons t ts ih =>
      intro h
      by_cases ht : t.id = id
      · simp [dbAnyId, ht] at h
      · simp [dbAnyId, ht] at h
        simp [dbFindTodo, ht, ih h]

/-- A miss of `WHERE id = $1` means the UPDATE touches no row. -/
theorem dbUpdateRows_of_not_found (id : Uuid) (u : UpdateTodoRequest) (now : Nat) :
    ∀ ts : List Todo, dbAnyId id ts = false → dbUpdateRows id u now ts = ts := by
  intro ts
  induction ts with
  | nil => intro _; rfl
  | cons t ts ih =>
      intro h
      by_cases ht : t.id = id
      · simp [dbAnyId, ht] at h
      · simp [dbAnyId, ht] at h
        have hstep : dbUpdateRows id u now (t :: ts) =
            (if t.id = id then u.applyTo t now else t) :: dbUpdateRows id u now ts := rfl
        rw [hstep, if_neg ht, ih h]

/-- A miss of `WHERE id = $1` means the DELETE removes no row. -/
theorem dbDeleteRows_of_not_found (id : Uuid) :
    ∀ ts : List Todo, dbAnyId id ts = false → dbDeleteRows id ts = ts := by
  intro ts
  induction ts with
  | nil => intro _; rfl
  | cons t ts ih =>
      intro h
      by_cases ht : t.id = id
      · simp [dbAnyId, ht] at h
      · simp [dbAnyId, ht] at h
        simp [dbDeleteRows, ht, ih h]

/-- A mock update over a vector without the id returns None and keeps the
vector. -/
theorem mockUpdateGo_of_not_found (id : Uuid) (u : UpdateTodoRequest) (now : Nat) :
    ∀ ts : List Todo, dbAnyId id ts = false → mockUpdateGo id u now ts = (none, ts) := by
  intro ts
  induction ts with
  | nil => intro _; rfl
  | cons t ts ih =>
      intro h
      by_cases ht : t.id = id
      · simp [dbAnyId, ht] at h
      · simp [dbAnyId, ht] at h
        simp [mockUpdateGo, ht, ih h]

/-- A mock delete over a vector without the id returns false and keeps the
vector. -/
theorem mockDeleteGo_of_not_found (id : Uuid) :
    ∀ ts : List Todo, dbAnyId id ts = false → mockDeleteGo id ts = (false, ts) := by
  intro ts
  induction ts with
  | nil => intro _; rfl
  | cons t ts ih =>
      intro h
      by_cases ht : t.id = id
      · simp [dbAnyId, ht] at h
      · simp [dbAnyId, ht] at h
        simp [mockDeleteGo, ht, ih h]

/-- Pointwise description of the rows after the SQL UPDATE: rows with other
ids are untouched, rows with the id become their COALESCE update. -/
theorem dbUpdateRows_pointwise (id : Uuid) (u : UpdateTodoRequest) (now : Nat) :
    ∀ rows : List Todo,
      List.Forall₂ (fun a b => (a.id ≠ id → b = a) ∧ (a.id = id → b = u.applyTo a now))
        rows (dbUpdateRows id u now rows) := by
  intro rows
  induction rows with
  | nil => exact List.Forall₂.nil
  | cons t ts ih =>
      have hstep : dbUpdateRows id u now (t :: ts) =
          (if t.id = id then u.applyTo t now else t) :: dbUpdateRows id u now ts := rfl
      rw [hstep]
      refine List.Forall₂.cons ⟨fun hne => ?_, fun he => ?_⟩ ih
      · rw [if_neg hne]
      · rw [if_pos he]

/-- Pointwise frame of the mock update: every element with a different id is
untouched (only the first hit is rewritten). -/
theorem mockUpdateGo_pointwise (id : Uuid) (u : UpdateTodoRequest) (now : Nat) :
    ∀ ts : List Todo,
      List.Forall₂ (fun a b => a.id ≠ id → b = a) ts (mockUpdateGo id u now ts).2 := by
  intro ts
  induction ts with
  | nil => exact List.Forall₂.nil
  | cons t ts ih =>
      by_cases ht : t.id = id
      · have hstep : (mockUpdateGo id u now (t :: ts)).2 = u.applyTo t now :: ts := by
          simp [mockUpdateGo, ht]
        rw [hstep]
        exact List.Forall₂.cons (fun hne => absurd ht hne)
          (List.forall₂_same.mpr (fun x _ _ => rfl))
      · have hstep : (mockUpdateGo id u now (t :: ts)).2 =
            t :: (mockUpdateGo id u now ts).2 := by
          simp [mockUpdateGo, ht]
        rw [hstep]
        exact List.Forall₂.cons (fun _ => rfl) ih

/-- C7: the repository update touches at most the row with the given id.
The COALESCE update keeps absent fields, overwrites provided ones, stamps
`updated_at`, and never changes `id` or `created_at`; in both
implementations rows with a different id are untouched, and an unknown id
returns None with the store unchanged. -/
theorem update_todo_frame (id : Uuid) (u : UpdateTodoRequest) (now : Nat)
    (t : Todo) (rows : List Todo) :
    ((u.applyTo t now).id = t.id ∧
      (u.applyTo t now).created_at = t.created_at ∧
      (u.applyTo t now).updated_at = now ∧
      (u.applyTo t now).title = u.title.getD t.title ∧
      (u.applyTo t now).content = u.content.getD t.content ∧
      (u.applyTo t now).completed = u.completed.getD t.completed) ∧
    List.Forall₂ (fun a b => (a.id ≠ id → b = a) ∧ (a.id = id → b = u.applyTo a now))
      rows (DatabaseTodoRepository.update_todo id u now rows).2 ∧
    (dbAnyId id rows = false →
      DatabaseTodoRepository.update_todo id u now rows = (Except.ok none, rows)) ∧
    (∀ todos : List Todo,
      List.Forall₂ (fun a b => a.id ≠ id → b = a)
        todos ((MockTodoRepository.update_todo id u now (false, todos)).2.2)) ∧
    (∀ todos : List Todo, dbAnyId id todos = false →
      MockTodoRepository.update_todo id u now (false, todos) =
        (Except.ok none, (false, todos))) := by
  refine ⟨⟨rfl, rfl, rfl, rfl, rfl, rfl⟩, ?_, ?_, ?_, ?_⟩
  · exact dbUpdateRows_pointwise id u now rows
  · intro h
    unfold DatabaseTodoRepository.update_todo
    rw [dbFindTodo_of_not_found id rows h, dbUpdateRows_of_not_found id u now rows h]
    rfl
  · intro todos
    have hstep : (MockTodoRepository.update_todo id u now (false, todos)).2.2 =
        (mockUpdateGo id u now todos).2 := by
      simp [MockTodoRepository.update_todo]
    rw [hstep]
    exact mockUpdateGo_pointwise id u now todos
  · intro todos h
    simp [MockTodoRepository.update_todo, mockUpdateGo_of_not_found id u now todos h]

/-- Witness for C7 at an id absent from a one-row store. -/
theorem update_todo_frame_witness :
    DatabaseTodoRepository.update_todo ⟨7, 9⟩ ⟨some "x", none, some true⟩ 3
        [⟨⟨7, 0⟩, "a", "old", false, 0, 0⟩] =
      (Except.ok none, [⟨⟨7, 0⟩, "a", "old", false, 0, 0⟩]) ∧
    MockTodoRepository.update_todo ⟨7, 9⟩ ⟨some "x", none, some true⟩ 3
        (false, [⟨⟨7, 0⟩, "a", "old", false, 0, 0⟩]) =
      (Except.ok none, (false, [⟨⟨7, 0⟩, "a", "old", false, 0, 0⟩])) :=
  ⟨(update_todo_frame ⟨7, 9⟩ ⟨some "x", none, some true⟩ 3
      ⟨⟨7, 0⟩, "a", "old", false, 0, 0⟩ [⟨⟨7, 0⟩, "a", "old", false, 0, 0⟩]).2.2.1
      (by decide),
    (update_todo_frame ⟨7, 9⟩ ⟨some "x", none, some true⟩ 3
      ⟨⟨7, 0⟩, "a", "old", false, 0, 0⟩ [⟨⟨7, 0⟩, "a", "old", false, 0, 0⟩]).2.2.2.2
      [⟨⟨7, 0⟩, "a", "old", false, 0, 0⟩] (by decide)⟩

/-! ## Equivalence of the two repository implementations -/

/-- COALESCE update keeps the row id. -/
theorem applyTo_id (u : UpdateTodoRequest) (t : Todo) (now : Nat) :
    (u.applyTo t now).id = t.id := rfl

/-- Membership of an id after appending a row. -/
theorem dbAnyId_append (id : Uuid) (t : Todo) :
    ∀ ts : List Todo, dbAnyId id (ts ++ [t]) = (dbAnyId id ts || decide (t.id = id)) := by
  intro ts
  induction ts with
  | nil => simp [dbAnyId]
  | cons u us ih =>
      by_cases hu : u.id = id
      · simp [dbAnyId, hu]
      · simp [dbAnyId, hu, ih]

/-- Appending a fresh row keeps the ids pairwise distinct. -/
theorem idsUniqueB_append (t : Todo) :
    ∀ ts : List Todo, idsUniqueB ts = true → dbAnyId t.id ts = false →
      idsUniqueB (ts ++ [t]) = true := by
  intro ts
  induction ts with
  | nil => intro _ _; rfl
  | cons u us ih =>
      intro hu hf
      have hu1 : dbAnyId u.id us = false := by
        simp [idsUniqueB, Bool.and_eq_true] at hu
        exact hu.1
      have hu2 : idsUniqueB us = true := by
        simp [idsUniqueB, Bool.and_eq_true] at hu
        exact hu.2
      have hf1 : u.id ≠ t.id := by
        by_cases h : u.id = t.id
        · simp [dbAnyId, h] at hf
        · exact h
      have hf2 : dbAnyId t.id us = false := by
        simp [dbAnyId, hf1] at hf
        exact hf
      have hne : ¬ t.id = u.id := fun h => hf1 h.symm
      show (!(dbAnyId u.id (us ++ [t])) && idsUniqueB (us ++ [t])) = true
      rw [dbAnyId_append, hu1, ih hu2 hf2]
      simp [hne]

/-- The SQL UPDATE does not change which ids are present. -/
theorem dbAnyId_updateRows (idq id : Uuid) (u : UpdateTodoRequest) (now : Nat) :
    ∀ ts : List Todo, dbAnyId idq (dbUpdateRows id u now ts) = dbAnyId idq ts := by
  intro ts
  induction ts with
  | nil => rfl
  | cons t ts ih =>
      have hstep : dbUpdateRows id u now (t :: ts) =
          (if t.id = id then u.applyTo t now else t) :: dbUpdateRows id u now ts := rfl
      rw [hstep]
      by_cases ht : t.id = id
      · simp [dbAnyId, ht, applyTo_id, ih]
      · simp [dbAnyId, ht, ih]

/-- The SQL UPDATE keeps the ids pairwise distinct. -/
theorem idsUniqueB_updateRows (id : Uuid) (u : UpdateTodoRequest) (now : Nat) :
    ∀ ts : List Todo, idsUniqueB ts = true →
      idsUniqueB (dbUpdateRows id u now ts) = true := by
  intro ts
  induction ts with
  | nil => intro _; rfl
  | cons t ts ih =>
      intro hu
      have hu1 : dbAnyId t.id ts = false := by
        simp [idsUniqueB, Bool.and_eq_true] at hu
        exact hu.1
      have hu2 : idsUniqueB ts = true := by
        simp [idsUniqueB, Bool.and_eq_true] at hu
        exact hu.2
      have hstep : dbUpdateRows id u now (t :: ts) =
          (if t.id = id then u.applyTo t now else t) :: dbUpdateRows id u now ts := rfl
      rw [hstep]
      by_cases ht : t.id = id
      · rw [if_pos ht]
        show (!(dbAnyId (u.applyTo t now).id (dbUpdateRows id u now ts)) &&
          idsUniqueB (dbUpdateRows id u now ts)) = true
        rw [applyTo_id, dbAnyId_updateRows, hu1, ih hu2]
        rfl
      · rw [if_neg ht]
        show (!(dbAnyId t.id (dbUpdateRows id u now ts)) &&
          idsUniqueB (dbUpdateRows id u now ts)) = true
        rw [dbAnyId_updateRows, hu1, ih hu2]
        rfl

/-- The SQL DELETE introduces no id. -/
theorem dbAnyId_deleteRows_false (idq id : Uuid) :
    ∀ ts : List Todo, dbAnyId idq ts = false →
      dbAnyId idq (dbDeleteRows id ts) = false := by
  intro ts
  induction ts with
  | nil => intro _; rfl
  | cons t ts ih =>
      intro h
      by_cases ht : t.id = idq
      · simp [dbAnyId, ht] at h
      · simp [dbAnyId, ht] at h
        by_cases hd : t.id = id
        · simp [dbDeleteRows, hd, ih h]
        · simp [dbDeleteRows, hd, dbAnyId, ht, ih h]

/-- The SQL DELETE keeps the ids pairwise distinct. -/
theorem idsUniqueB_deleteRows (id : Uuid) :
    ∀ ts : List Todo, idsUniqueB ts = true →
      idsUniqueB (dbDeleteRows id ts) = true := by
  intro ts
  induction ts with
  | nil => intro _; rfl
  | cons t ts ih =>
      intro hu
      have hu1 : dbAnyId t.id ts = false := by
        simp [idsUniqueB, Bool.and_eq_true] at hu
        exact hu.1
      have hu2 : idsUniqueB ts = true := by
        simp [idsUniqueB, Bool.and_eq_true] at hu
        exact hu.2
      by_cases hd : t.id = id
      · simp [dbDeleteRows, hd, ih hu2]
      · have : idsUniqueB (t :: dbDeleteRows id ts) =
            (!(dbAnyId t.id (dbDeleteRows id ts)) && idsUniqueB (dbDeleteRows id ts)) := rfl
        simp [dbDeleteRows, hd, this, dbAnyId_deleteRows_false t.id id ts hu1, ih hu2]

/-- Under pairwise-distinct ids, the mock first-match update computes
exactly the SQL UPDATE: same returned row, same rows. -/
theorem mockUpdateGo_eq_db (id : Uuid) (u : UpdateTodoRequest) (now : Nat) :
    ∀ ts : List Todo, idsUniqueB ts = true →
      mockUpdateGo id u now ts =
        ((dbFindTodo id ts).map (fun t => u.applyTo t now),
          dbUpdateRows id u now ts) := by
  intro ts
  induction ts with
  | nil => intro _; rfl
  | cons t ts ih =>
      intro hu
      have hu1 : dbAnyId t.id ts = false := by
        simp [idsUniqueB, Bool.and_eq_true] at hu
        exact hu.1
      have hu2 : idsUniqueB ts = true := by
        simp [idsUniqueB, Bool.and_eq_true] at hu
        exact hu.2
      have hstep : dbUpdateRows id u now (t :: ts) =
          (if t.id = id then u.applyTo t now else t) :: dbUpdateRows id u now ts := rfl
      by_cases ht : t.id = id
      · have hrest : dbUpdateRows id u now ts = ts :=
          dbUpdateRows_of_not_found id u now ts (ht ▸ hu1)
        simp [mockUpdateGo, dbFindTodo, hstep, ht, hrest]
      · simp [mockUpdateGo, dbFindTodo, hstep, ht, ih hu2]

/-- Under pairwise-distinct ids, the mock first-match delete computes
exactly the SQL DELETE: same hit flag, same rows. -/
theorem mockDeleteGo_eq_db (id : Uuid) :
    ∀ ts : List Todo, idsUniqueB ts = true →
      mockDeleteGo id ts = (dbAnyId id ts, dbDeleteRows id ts) := by
  intro ts
  induction ts with
  | nil => intro _; rfl
  | cons t ts ih =>
      intro hu
      have hu1 : dbAnyId t.id ts = false := by
        simp [idsUniqueB, Bool.and_eq_true] at hu
        exact hu.1
      have hu2 : idsUniqueB ts = true := by
        simp [idsUniqueB, Bool.and_eq_true] at hu
        exact hu.2
      by_cases ht : t.id = id
      · have hrest : dbDeleteRows id ts = ts :=
          dbDeleteRows_of_not_found id ts (ht ▸ hu1)
        simp [mockDeleteGo, dbAnyId, dbDeleteRows, ht, hrest]
      · simp [mockDeleteGo, dbAnyId, dbDeleteRows, ht, ih hu2]

/-- One-step simulation: on stores with pairwise-distinct ids (and a fresh
id for a create), the database step produces the mock step's state and the
mock step's result up to `fixRes`, keeps the mock flag unset, and preserves
distinctness. -/
theorem step_sim (op : Op) (rows : List Todo) (hu : idsUniqueB rows = true)
    (hf : opFresh op rows = true) :
    dbStep op rows =
      (fixRes (mockStep op (false, rows)).1, (mockStep op (false, rows)).2.2) ∧
    (mockStep op (false, rows)).2.1 = false ∧
    idsUniqueB (mockStep op (false, rows)).2.2 = true := by
  cases op with
  | create t =>
      have hfresh : dbAnyId t.id rows = false := by
        simp [opFresh] at hf
        exact hf
      refine ⟨?_, rfl, ?_⟩
      · simp [dbStep, mockStep, DatabaseTodoRepository.create_todo,
          MockTodoRepository.create_todo, dbInsertRow, hfresh, fixRes]
      · show idsUniqueB (rows ++ [t]) = true
        exact idsUniqueB_append t rows hu hfresh
  | getAll =>
      exact ⟨by simp [dbStep, mockStep, DatabaseTodoRepository.get_all_todos,
        MockTodoRepository.get_all_todos, fixRes], rfl, hu⟩
  | getById id =>
      exact ⟨by simp [dbStep, mockStep, DatabaseTodoRepository.get_todo_by_id,
        MockTodoRepository.get_todo_by_id, fixRes], rfl, hu⟩
  | update id u now =>
      have heq := mockUpdateGo_eq_db id u now rows hu
      refine ⟨?_, ?_, ?_⟩
      · simp [dbStep, mockStep, DatabaseTodoRepository.update_todo,
          MockTodoRepository.update_todo, heq, fixRes]
      · simp [mockStep, MockTodoRepository.update_todo]
      · show idsUniqueB (mockStep (Op.update id u now) (false, rows)).2.2 = true
        have hstate : (mockStep (Op.update id u now) (false, rows)).2.2 =
            dbUpdateRows id u now rows := by
          simp [mockStep, MockTodoRepository.update_todo, heq]
        rw [hstate]
        exact idsUniqueB_updateRows id u now rows hu
  | delete id =>
      have heq := mockDeleteGo_eq_db id rows hu
      refine ⟨?_, ?_, ?_⟩
      · simp [dbStep, mockStep, DatabaseTodoRepository.delete_todo,
          MockTodoRepository.delete_todo, heq, fixRes]
      · simp [mockStep, MockTodoRepository.delete_todo]
      · have hstate : (mockStep (Op.delete id) (false, rows)).2.2 =
            dbDeleteRows id rows := by
          simp [mockStep, MockTodoRepository.delete_todo, heq]
        rw [hstate]
        exact idsUniqueB_deleteRows id rows hu

/-- Run-level simulation: starting from any store with pairwise-distinct
ids, a sequence of operations whose creates use fresh ids drives both
implementations through identical stores, and the database results are the
mock results with successful `get_all_todos` answers reordered by
`created_at` descending. -/
theorem run_sim :
    ∀ (ops : List Op) (rows : List Todo),
      idsUniqueB rows = true → freshRunB ops rows = true →
      dbRun ops rows =
        ((mockRun ops (false, rows)).1.map fixRes,
          (mockRun ops (false, rows)).2.2) := by
  intro ops
  induction ops with
  | nil => intro rows _ _; rfl
  | cons op ops ih =>
      intro rows hu hf
      have hfc : (opFresh op rows && freshRunB ops (dbStep op rows).2) = true := hf
      rw [Bool.and_eq_true] at hfc
      obtain ⟨hf1, hf2⟩ := hfc
      obtain ⟨hdb, hflag, hun⟩ := step_sim op rows hu hf1
      have hstate : (dbStep op rows).2 = (mockStep op (false, rows)).2.2 := by
        rw [hdb]
      have ihx := ih (mockStep op (false, rows)).2.2 hun (hstate ▸ hf2)
      have hsnd : (mockStep op (false, rows)).2 =
          (false, (mockStep op (false, rows)).2.2) :=
        Prod.ext hflag rfl
      have hdbrun : dbRun (op :: ops) rows =
          ((dbStep op rows).1 :: (dbRun ops (dbStep op rows).2).1,
            (dbRun ops (dbStep op rows).2).2) := rfl
      have hmockrun : mockRun (op :: ops) (false, rows) =
          ((mockStep op (false, rows)).1 ::
              (mockRun ops (mockStep op (false, rows)).2).1,
            (mockRun ops (mockStep op (false, rows)).2).2) := rfl
      rw [hdbrun, hmockrun, hsnd, hdb, ihx]
      simp

/-- Counterexample to C2: two creates followed by `get_all_todos` return the
two todos in insertion order on the in-memory repository but in descending
`created_at` order on the table-backed repository. -/
theorem repos_not_interchangeable_cex :
    (mockRun [Op.create ⟨⟨7, 0⟩, "a", "", false, 0, 0⟩,
        Op.create ⟨⟨7, 1⟩, "b", "", false, 1, 1⟩, Op.getAll] (false, [])).1 ≠
      (dbRun [Op.create ⟨⟨7, 0⟩, "a", "", false, 0, 0⟩,
        Op.create ⟨⟨7, 1⟩, "b", "", false, 1, 1⟩, Op.getAll] []).1 := by
  decide

/-- C2 amended: starting from the empty store, for every operation sequence
whose created todos have ids fresh at creation time (as the handler's
version-7 UUIDs are), the two implementations traverse identical stores and
return identical results for create, get-by-id, update and delete, while a
successful `get_all_todos` returns the same todos — in insertion order from
the in-memory repository and reordered by `created_at` descending by the
table-backed repository. -/
theorem repos_agree_up_to_get_all_order (ops : List Op)
    (hf : freshRunB ops [] = true) :
    dbRun ops [] =
      ((mockRun ops (false, [])).1.map fixRes, (mockRun ops (false, [])).2.2) :=
  run_sim ops [] rfl hf

/-- Witness for the amended C2 on the counterexample's operation
sequence. -/
theorem repos_agree_up_to_get_all_order_witness :
    dbRun [Op.create ⟨⟨7, 0⟩, "a", "", false, 0, 0⟩,
        Op.create ⟨⟨7, 1⟩, "b", "", false, 1, 1⟩, Op.getAll] [] =
      ((mockRun [Op.create ⟨⟨7, 0⟩, "a", "", false, 0, 0⟩,
          Op.create ⟨⟨7, 1⟩, "b", "", false, 1, 1⟩, Op.getAll] (false, [])).1.map fixRes,
        (mockRun [Op.create ⟨⟨7, 0⟩, "a", "", false, 0, 0⟩,
          Op.create ⟨⟨7, 1⟩, "b", "", false, 1, 1⟩, Op.getAll] (false, [])).2.2) :=
  repos_agree_up_to_get_all_order
    [Op.create ⟨⟨7, 0⟩, "a", "", false, 0, 0⟩,
      Op.create ⟨⟨7, 1⟩, "b", "", false, 1, 1⟩, Op.getAll] (by decide)
